import Mathlib

/-!
Verification of the real-time simulation core of a 2D side-scrolling
shooter (player entity on the left edge, enemies advancing from the
right, three timed levels).

The development shallowly embeds the game engine: numbers are modelled
as rationals (`ℚ`) for positions, speeds, health and multipliers, and
integers (`ℤ`) for millisecond wall-clock timestamps and scores.
`Date.now()` is passed in explicitly as a timestamp parameter.
JavaScript `Math.round` is `jsRound` (floor of x + 1/2, which is how JS
rounds ties, toward +infinity).  JavaScript array mutation during
`forEach` traversal (`splice` inside the collision loops) is modelled
index-faithfully: the loop index advances by one each iteration and is
tested against the *current* length of the list, exactly the observable
behaviour of `Array.prototype.forEach` on an array that only shrinks.

Effects that draw on `Math.random` (the explosion-particle burst, the
random power-up drops and the random spawn-table choice) and on
trigonometry (enemy aimed shots) do not have rational-arithmetic
counterparts; they are passed in as oracle parameters (`spawned`,
`shootOracle`) or omitted where they touch only the particle / pickup
collections, which no verified property depends on.  Sound and
achievement notifications are fire-and-forget externals and are not
modelled.
-/

namespace Shooter

/-- JavaScript `Math.round`: round half toward positive infinity. -/
def jsRound (q : ℚ) : ℤ := ⌊q + 1/2⌋

/-- 2D point (`Position` in `types.ts`). -/
structure Position where
  x : ℚ
  y : ℚ
deriving DecidableEq, Repr

/-- Rectangle extent (`Size` in `types.ts`). -/
structure Size where
  width : ℚ
  height : ℚ
deriving DecidableEq, Repr

/-- A projectile (`Bullet` in `types.ts`). -/
structure Bullet where
  x : ℚ
  y : ℚ
  vx : ℚ
  vy : ℚ
  width : ℚ
  height : ℚ
  isPlayerBullet : Bool
  damage : ℚ
deriving DecidableEq, Repr

/-- `CollisionDetector.rectRectCollision`: axis-aligned rectangle
overlap test, strict inequalities on all four comparisons. -/
def rectRectCollision (pos1 : Position) (size1 : Size)
    (pos2 : Position) (size2 : Size) : Bool :=
  decide (pos1.x < pos2.x + size2.width) &&
  decide (pos1.x + size1.width > pos2.x) &&
  decide (pos1.y < pos2.y + size2.height) &&
  decide (pos1.y + size1.height > pos2.y)

/-- The player entity (`Base` class in `Base.ts`): fixed x, mutable y,
health, speed. -/
structure Base where
  position : Position
  size : Size
  health : ℚ
  maxHealth : ℚ
  speed : ℚ
deriving DecidableEq, Repr

/-- `Base` constructor: 60x60 rectangle at x = 50, vertically centred,
health 100, speed 7. -/
def mkBase (canvasWidth canvasHeight : ℚ) : Base :=
  { position := { x := 50, y := canvasHeight / 2 - 60 / 2 }
    size := { width := 60, height := 60 }
    health := 100
    maxHealth := 100
    speed := 7 }

/-- `Base.moveUp`: y decreases by speed * multiplier, clamped below at 0. -/
def moveUp (canvasHeight speedMultiplier : ℚ) (b : Base) : Base :=
  { b with position :=
      { b.position with y := max 0 (b.position.y - b.speed * speedMultiplier) } }

/-- `Base.moveDown`: y increases by speed * multiplier, clamped above at
canvasHeight - height. -/
def moveDown (canvasHeight speedMultiplier : ℚ) (b : Base) : Base :=
  { b with position :=
      { b.position with
          y := min (canvasHeight - b.size.height)
                   (b.position.y + b.speed * speedMultiplier) } }

/-- `Base.getCenter`: right-centre point, the bullet spawn origin. -/
def baseGetCenter (b : Base) : Position :=
  { x := b.position.x + b.size.width, y := b.position.y + b.size.height / 2 }

/-- `Base.takeDamage`: subtract, floored at 0. -/
def baseTakeDamage (b : Base) (amount : ℚ) : Base :=
  { b with health := max 0 (b.health - amount) }

/-- `Base.isAlive`. -/
def baseIsAlive (b : Base) : Bool := decide (b.health > 0)

/-- Per-type behaviour descriptor (`EnemyConfig` in `types.ts`).
`bulletsPerShot` and `bulletSpeed` carry their source defaults (1, 4)
when the config omits them. -/
structure EnemyConfig where
  health : ℚ
  speed : ℚ
  width : ℚ
  height : ℚ
  canShoot : Bool
  shootInterval : ℤ
  level : ℕ
  bulletsPerShot : ℕ
  bulletSpeed : ℚ
deriving DecidableEq, Repr

/-- An active enemy (`Enemy` class): position, size, health, speed,
behaviour config, last-shot timestamp, vertical dodge direction. -/
structure Enemy where
  position : Position
  size : Size
  health : ℚ
  maxHealth : ℚ
  speed : ℚ
  config : EnemyConfig
  lastShotTime : ℤ
  verticalDirection : ℚ
deriving DecidableEq, Repr

/-- `Enemy.update`: move left by `speed`, drift vertically by
`verticalDirection * 0.5`, flip the direction at the top/bottom edges,
then clamp y into `[0, canvasHeight - height]`. -/
def enemyUpdate (canvasWidth canvasHeight : ℚ) (en : Enemy) : Enemy :=
  let x := en.position.x - en.speed
  let y := en.position.y + en.verticalDirection * (1/2)
  let dir := if y ≤ 0 ∨ y ≥ canvasHeight - en.size.height
             then en.verticalDirection * (-1) else en.verticalDirection
  { en with
      position := { x := x, y := max 0 (min (canvasHeight - en.size.height) y) }
      verticalDirection := dir }

/-- `Enemy.canShoot`: the config allows firing and the fire interval has
elapsed since the last shot. -/
def enemyCanShoot (t : ℤ) (en : Enemy) : Bool :=
  en.config.canShoot && decide (t - en.lastShotTime ≥ en.config.shootInterval)

/-- `Enemy.takeDamage`: subtract, floored at 0. -/
def enemyTakeDamage (en : Enemy) (amount : ℚ) : Enemy :=
  { en with health := max 0 (en.health - amount) }

/-- `Enemy.getCenter`. -/
def enemyGetCenter (en : Enemy) : Position :=
  { x := en.position.x + en.size.width / 2
    y := en.position.y + en.size.height / 2 }

/-- `Enemy.isAlive`. -/
def enemyIsAlive (en : Enemy) : Bool := decide (en.health > 0)

/-- `Enemy.isOffScreen`: fully past the left edge. -/
def enemyIsOffScreen (en : Enemy) : Bool :=
  decide (en.position.x + en.size.width < 0)

/-- `CollisionDetector.bulletEnemyCollision`. -/
def bulletEnemyCollision (b : Bullet) (en : Enemy) : Bool :=
  rectRectCollision { x := b.x, y := b.y } { width := b.width, height := b.height }
    en.position en.size

/-- `CollisionDetector.bulletBaseCollision`. -/
def bulletBaseCollision (b : Bullet) (base : Base) : Bool :=
  rectRectCollision { x := b.x, y := b.y } { width := b.width, height := b.height }
    base.position base.size

/-- `CollisionDetector.enemyBaseCollision` (melee contact). -/
def enemyBaseCollision (en : Enemy) (base : Base) : Bool :=
  rectRectCollision en.position en.size base.position base.size

/-- The four pickup kinds (`PowerUpType` in `types.ts`). -/
inductive PowerUpType where
  | speedBoost
  | rapidFire
  | shield
  | multiShot
deriving DecidableEq, Repr

/-- A floating pickup (`PowerUp` in `types.ts`). -/
structure PowerUp where
  x : ℚ
  y : ℚ
  type : PowerUpType
  lifetime : ℚ
  maxLifetime : ℚ
  size : ℚ
deriving DecidableEq, Repr

/-- A transient score popup (`ScorePopup` in `types.ts`). -/
structure ScorePopup where
  x : ℚ
  y : ℚ
  value : ℤ
  lifetime : ℚ
  maxLifetime : ℚ
deriving DecidableEq, Repr

/-- An explosion particle (`Particle` in `types.ts`; the colour string
is irrelevant to every verified property and is kept as an opaque-free
plain field). -/
structure Particle where
  x : ℚ
  y : ℚ
  vx : ℚ
  vy : ℚ
  lifetime : ℚ
  maxLifetime : ℚ
  size : ℚ
deriving DecidableEq, Repr

/-- The boss record from `types.ts` (the engine only ever stores
`null` here, but the field exists). -/
structure Boss where
  position : Position
  size : Size
  health : ℚ
  maxHealth : ℚ
  speed : ℚ
  lastShotTime : ℤ
  shootInterval : ℤ
deriving DecidableEq, Repr

/-- The scoreboard / progression record (`GameState` in `types.ts`). -/
structure GameState where
  score : ℤ
  level : ℕ
  playerHealth : ℚ
  maxPlayerHealth : ℚ
  isGameOver : Bool
  isPaused : Bool
  levelStartTime : ℤ
  levelDuration : ℤ
  enemiesKilled : ℕ
  bulletsShot : ℕ
  bulletsHit : ℕ
  gameStartTime : ℤ
  combo : ℕ
  comboMultiplier : ℚ
  lastKillTime : ℤ
deriving DecidableEq, Repr

/-- The level-duration table (`GameEngine.levelDurations`: level 1 runs
30 s, level 2 runs 60 s, level 3 runs 40 s). -/
def levelDurations (level : ℕ) : ℤ :=
  if level = 1 then 30000 else if level = 2 then 60000
  else if level = 3 then 40000 else 0

/-- The whole engine (`GameEngine` fields).  `activePowerUps` is the
`Map PowerUpType -> expiration` as a function into `Option ℤ`. -/
structure Engine where
  base : Base
  enemies : List Enemy
  bullets : List Bullet
  scorePopups : List ScorePopup
  particles : List Particle
  powerUps : List PowerUp
  boss : Option Boss
  gameState : GameState
  canvasWidth : ℚ
  canvasHeight : ℚ
  lastSpawnTime : ℤ
  lastPowerUpSpawn : ℤ
  spawnInterval : ℤ
  activePowerUps : PowerUpType → Option ℤ
  baseSpeedMultiplier : ℚ
  shootCooldownMultiplier : ℚ
  hasShield : Bool
  multiShotCount : ℕ

/-- `GameEngine` constructor, with `Date.now()` passed as `now`.  The
class-initialiser defaults (`lastSpawnTime = 0`, `lastPowerUpSpawn = 0`,
`spawnInterval = 1000`) apply. -/
def mkEngine (canvasWidth canvasHeight : ℚ) (now : ℤ) : Engine :=
  let base := mkBase canvasWidth canvasHeight
  { base := base
    enemies := []
    bullets := []
    scorePopups := []
    particles := []
    powerUps := []
    boss := none
    gameState :=
      { score := 0
        level := 1
        playerHealth := base.health
        maxPlayerHealth := base.maxHealth
        isGameOver := false
        isPaused := false
        levelStartTime := now
        levelDuration := levelDurations 1
        enemiesKilled := 0
        bulletsShot := 0
        bulletsHit := 0
        gameStartTime := now
        combo := 0
        comboMultiplier := 1
        lastKillTime := 0 }
    canvasWidth := canvasWidth
    canvasHeight := canvasHeight
    lastSpawnTime := 0
    lastPowerUpSpawn := 0
    spawnInterval := 1000
    activePowerUps := fun _ => none
    baseSpeedMultiplier := 1
    shootCooldownMultiplier := 1
    hasShield := false
    multiShotCount := 1 }

/-- `GameEngine.reset`: fresh player, empty collections, fresh
game-state stamped at `now`; spawn timers restarted; power-up modifiers
back to baseline.  (`spawnInterval` is untouched by the source.) -/
def resetEngine (now : ℤ) (e : Engine) : Engine :=
  let base := mkBase e.canvasWidth e.canvasHeight
  { e with
      base := base
      enemies := []
      bullets := []
      scorePopups := []
      particles := []
      powerUps := []
      boss := none
      gameState :=
        { score := 0
          level := 1
          playerHealth := base.health
          maxPlayerHealth := base.maxHealth
          isGameOver := false
          isPaused := false
          levelStartTime := now
          levelDuration := levelDurations 1
          enemiesKilled := 0
          bulletsShot := 0
          bulletsHit := 0
          gameStartTime := now
          combo := 0
          comboMultiplier := 1
          lastKillTime := 0 }
      lastSpawnTime := now
      lastPowerUpSpawn := now
      activePowerUps := fun _ => none
      baseSpeedMultiplier := 1
      shootCooldownMultiplier := 1
      hasShield := false
      multiShotCount := 1 }

/-- `GameEngine.nextLevel`: below level 3, advance the level, clear
enemies and bullets, restart the level timer, and — exactly when the
level being left is 2 — restore player health and max-health to 100;
at level 3, set game-over instead. -/
def nextLevel (now : ℤ) (e : Engine) : Engine :=
  if e.gameState.level < 3 then
    let previousLevel := e.gameState.level
    let level := e.gameState.level + 1
    let e1 := { e with
      enemies := []
      bullets := []
      gameState := { e.gameState with
        level := level
        levelStartTime := now
        levelDuration := levelDurations level }
      lastSpawnTime := now }
    if previousLevel = 2 then
      { e1 with
          base := { e1.base with health := 100, maxHealth := 100 }
          gameState := { e1.gameState with
            playerHealth := 100, maxPlayerHealth := 100 } }
    else e1
  else
    { e with gameState := { e.gameState with isGameOver := true } }

/-- `GameEngine.spawnEnemies`: time-gated; pushes the factory's random
choice (here the oracle parameter `spawned`), restamps the spawn timer
and tightens the spawn interval with the level, floored at 500 ms. -/
def spawnEnemies (t : ℤ) (spawned : Option Enemy) (e : Engine) : Engine :=
  if t - e.lastSpawnTime ≥ e.spawnInterval then
    { e with
        enemies := e.enemies ++ spawned.toList
        lastSpawnTime := t
        spawnInterval := max 500 (1500 - ((e.gameState.level : ℤ) - 1) * 150) }
  else e

/-- `GameEngine.updateCombo` (combo decay): if a kill has happened this
match and more than 2000 ms have passed since it, drop combo to 0 and
the multiplier to 1. -/
def updateCombo (t : ℤ) (gs : GameState) : GameState :=
  if gs.lastKillTime > 0 ∧ t - gs.lastKillTime > 2000 then
    { gs with combo := 0, comboMultiplier := 1 }
  else gs

/-- The kill bookkeeping inside the player-bullet-vs-enemy loop of
`GameEngine.update`: combo update, multiplier, points, score, kill and
bullet-hit counters, last-kill timestamp.  Returns the new game state
and the awarded points (used for the score popup). -/
def killUpdate (gs : GameState) (t : ℤ) : GameState × ℤ :=
  let timeSinceLastKill := t - gs.lastKillTime
  let comboMult : ℕ × ℚ :=
    if timeSinceLastKill < 2000 ∧ gs.lastKillTime > 0 then
      let combo := gs.combo + 1
      (combo, min (1 + (combo : ℚ) * (1/10)) 3)
    else (1, 1)
  let basePoints : ℚ := if gs.level = 3 then 500 else 10 * (gs.level : ℚ)
  let points := jsRound (basePoints * comboMult.2)
  ({ gs with
      combo := comboMult.1
      comboMultiplier := comboMult.2
      lastKillTime := t
      score := gs.score + points
      enemiesKilled := gs.enemiesKilled + 1
      bulletsHit := gs.bulletsHit + 1 }, points)

/-- The per-enemy body of the first loop of `GameEngine.update`: advance
the enemy, fire if able (bullets supplied by the trigonometry oracle,
last-shot timestamp restamped as `Enemy.shoot` does), and on melee
contact of a non-firing enemy deal 5 damage to the player, mirror the
health into the game state and force-kill the enemy with
`takeDamage(100)`. -/
def enemyStep (t : ℤ) (shootOracle : Enemy → List Bullet)
    (acc : Engine × List Enemy) (en : Enemy) : Engine × List Enemy :=
  let e := acc.1
  let en := enemyUpdate e.canvasWidth e.canvasHeight en
  let fired := enemyCanShoot t en
  let en := if fired then { en with lastShotTime := t } else en
  let e := if fired then { e with bullets := e.bullets ++ shootOracle en } else e
  if ¬ en.config.canShoot ∧ enemyBaseCollision en e.base then
    let base := baseTakeDamage e.base 5
    let e := { e with
        base := base
        gameState := { e.gameState with playerHealth := base.health } }
    (e, acc.2 ++ [enemyTakeDamage en 100])
  else
    (e, acc.2 ++ [en])

/-- The first loop of `GameEngine.update` over `this.enemies` (movement,
enemy fire, melee contact).  The loop does not add or remove enemies; it
mutates them in place, modelled as rebuilding the list. -/
def enemyPhase (t : ℤ) (shootOracle : Enemy → List Bullet) (e : Engine) : Engine :=
  let r := e.enemies.foldl (enemyStep t shootOracle) ({ e with enemies := [] }, [])
  { r.1 with enemies := r.2 }

/-- Straight-line bullet integration (`bullet.x += vx; bullet.y += vy`). -/
def moveBullet (b : Bullet) : Bullet := { b with x := b.x + b.vx, y := b.y + b.vy }

/-- Score-popup aging: +16 ms lifetime, drift up 1 px, kept while under
max lifetime. -/
def agePopups (popups : List ScorePopup) : List ScorePopup :=
  popups.filterMap fun popup =>
    let p := { popup with lifetime := popup.lifetime + 16, y := popup.y - 1 }
    if p.lifetime < p.maxLifetime then some p else none

/-- Particle aging: +16 ms lifetime, integrate position, then gravity on
vy and friction on vx; kept while under max lifetime. -/
def ageParticles (ps : List Particle) : List Particle :=
  ps.filterMap fun particle =>
    let p := { particle with
        lifetime := particle.lifetime + 16
        x := particle.x + particle.vx
        y := particle.y + particle.vy }
    let p := { p with vy := p.vy + (1/10), vx := p.vx * (98/100) }
    if p.lifetime < p.maxLifetime then some p else none

/-- On-screen test for bullets (50 px margin on every side). -/
def bulletOnScreen (canvasWidth canvasHeight : ℚ) (b : Bullet) : Bool :=
  decide (b.x > -50) && decide (b.x < canvasWidth + 50) &&
  decide (b.y > -50) && decide (b.y < canvasHeight + 50)

/-- Inner loop of the player-bullet-vs-enemy collision pass: `bullet`
and `bulletIndex` are the captured element and index of the outer
`forEach`; `j` walks `this.enemies`.  Following the ECMAScript
semantics of `forEach`, the enemy count at loop entry is passed as
`fuel` (the spec caches the length once) and each index beyond the
current length of the shrinking array is skipped.  On a hit the enemy
takes the bullet's damage, `bullets.splice(bulletIndex, 1)` runs (even
if the bullet was already spliced out — then it removes whatever bullet
now sits at that index), and a dead enemy triggers the kill
bookkeeping, a score popup, and `enemies.splice(j, 1)`.  The random
particle burst and the 10 %-chance pickup drop touch only the
particle / pickup collections and are omitted. -/
def innerEnemyLoop (bullet : Bullet) (bulletIndex : ℕ) (t : ℤ) :
    ℕ → ℕ → Engine → Engine
  | 0, _, e => e
  | fuel + 1, j, e =>
    if h : j < e.enemies.length then
      let en := e.enemies.get ⟨j, h⟩
      if bulletEnemyCollision bullet en then
        let en := enemyTakeDamage en bullet.damage
        let e1 := { e with
            enemies := e.enemies.set j en
            bullets := e.bullets.eraseIdx bulletIndex }
        if ¬ enemyIsAlive en then
          let r := killUpdate e1.gameState t
          let c := enemyGetCenter en
          let e2 := { e1 with
              gameState := r.1
              scorePopups := e1.scorePopups ++
                [{ x := c.x, y := c.y, value := r.2, lifetime := 0,
                   maxLifetime := 1000 }]
              enemies := e1.enemies.eraseIdx j }
          innerEnemyLoop bullet bulletIndex t fuel (j + 1) e2
        else
          innerEnemyLoop bullet bulletIndex t fuel (j + 1) e1
      else
        innerEnemyLoop bullet bulletIndex t fuel (j + 1) e
    else innerEnemyLoop bullet bulletIndex t fuel (j + 1) e

/-- Outer loop of the player-bullet-vs-enemy collision pass
(`this.bullets.forEach` with the player-bullet guard); `fuel` is the
bullet count at loop entry. -/
def bulletEnemyPass (t : ℤ) : ℕ → ℕ → Engine → Engine
  | 0, _, e => e
  | fuel + 1, i, e =>
    if h : i < e.bullets.length then
      let b := e.bullets.get ⟨i, h⟩
      let e1 := if b.isPlayerBullet then
          innerEnemyLoop b i t e.enemies.length 0 e
        else e
      bulletEnemyPass t fuel (i + 1) e1
    else bulletEnemyPass t fuel (i + 1) e

/-- The enemy-bullet-vs-player collision pass of `GameEngine.update`:
for each non-player bullet overlapping the player, a held shield
absorbs the hit (flag cleared, no damage), otherwise the player takes
the bullet's damage; the player health is mirrored into the game state,
the bullet is spliced out, and game-over is set when the player is no
longer alive. -/
def bulletBasePass : ℕ → ℕ → Engine → Engine
  | 0, _, e => e
  | fuel + 1, i, e =>
    if h : i < e.bullets.length then
      let b := e.bullets.get ⟨i, h⟩
      if ¬ b.isPlayerBullet ∧ bulletBaseCollision b e.base then
        let e1 := if e.hasShield then { e with hasShield := false }
          else { e with base := baseTakeDamage e.base b.damage }
        let e2 := { e1 with
            gameState := { e1.gameState with playerHealth := e1.base.health }
            bullets := e1.bullets.eraseIdx i }
        let e3 := if ¬ baseIsAlive e2.base then
            { e2 with gameState := { e2.gameState with isGameOver := true } }
          else e2
        bulletBasePass fuel (i + 1) e3
      else bulletBasePass fuel (i + 1) e
    else bulletBasePass fuel (i + 1) e

/-- `GameEngine.activatePowerUp`: record the expiration `now + 10000`
for the collected type (a `Map.set`, so re-collection overwrites) and
apply its modifier. -/
def activatePowerUp (now : ℤ) (ty : PowerUpType) (e : Engine) : Engine :=
  let expiration := now + 10000
  let e := { e with activePowerUps :=
      fun x => if x = ty then some expiration else e.activePowerUps x }
  match ty with
  | .speedBoost => { e with baseSpeedMultiplier := 3/2 }
  | .rapidFire => { e with shootCooldownMultiplier := 1/2 }
  | .shield => { e with hasShield := true }
  | .multiShot => { e with multiShotCount := 3 }

/-- `GameEngine.deactivatePowerUp`: modifier back to baseline. -/
def deactivatePowerUp (ty : PowerUpType) (e : Engine) : Engine :=
  match ty with
  | .speedBoost => { e with baseSpeedMultiplier := 1 }
  | .rapidFire => { e with shootCooldownMultiplier := 1 }
  | .shield => { e with hasShield := false }
  | .multiShot => { e with multiShotCount := 1 }

/-- One entry of the expiration sweep in `GameEngine.updatePowerUps`:
if the type is active and its expiration has been reached, deactivate
it and delete it from the map. -/
def expirePowerUp (t : ℤ) (ty : PowerUpType) (e : Engine) : Engine :=
  match e.activePowerUps ty with
  | some expiration =>
    if t ≥ expiration then
      let e := deactivatePowerUp ty e
      { e with activePowerUps :=
          fun x => if x = ty then none else e.activePowerUps x }
    else e
  | none => e

/-- `GameEngine.updatePowerUps`: sweep the four entry kinds of the
expiration map (the per-type effects touch disjoint fields, so the
`Map` iteration order is immaterial), then age the floating pickups. -/
def updatePowerUps (t : ℤ) (e : Engine) : Engine :=
  let e := expirePowerUp t .speedBoost e
  let e := expirePowerUp t .rapidFire e
  let e := expirePowerUp t .shield e
  let e := expirePowerUp t .multiShot e
  { e with powerUps := e.powerUps.filterMap fun powerUp =>
      let p := { powerUp with lifetime := powerUp.lifetime + 16 }
      if p.lifetime < p.maxLifetime then some p else none }

/-- `GameEngine.update`: the per-frame step, with `Date.now()` passed
as `t`, the random spawn-table draw as `spawned` and the trigonometric
enemy-shot construction as `shootOracle`.  The phases follow the source
order: pause / game-over guard, level-timer check, enemy spawn, the
enemy loop, bullet integration, combo decay, popup and particle aging,
off-screen removal of bullets and enemies, the two collision passes,
power-up expiration, and the final health mirror.  The power-up pickup
check and the 15-second random pickup spawn reach engine state only
through `activatePowerUp` (modelled directly) and the pickup
collection, and are not part of this composition. -/
def update (t : ℤ) (spawned : Option Enemy) (shootOracle : Enemy → List Bullet)
    (e : Engine) : Engine :=
  if e.gameState.isPaused ∨ e.gameState.isGameOver then e
  else
    let levelElapsed := t - e.gameState.levelStartTime
    if levelElapsed ≥ e.gameState.levelDuration then nextLevel t e
    else
      let e := spawnEnemies t spawned e
      let e := enemyPhase t shootOracle e
      let e := { e with bullets := e.bullets.map moveBullet }
      let e := { e with gameState := updateCombo t e.gameState }
      let e := { e with scorePopups := agePopups e.scorePopups }
      let e := { e with particles := ageParticles e.particles }
      let e := { e with bullets :=
          e.bullets.filter (bulletOnScreen e.canvasWidth e.canvasHeight) }
      let e := { e with enemies := e.enemies.filter fun en => ¬ enemyIsOffScreen en }
      let e := bulletEnemyPass t e.bullets.length 0 e
      let e := bulletBasePass e.bullets.length 0 e
      let e := updatePowerUps t e
      { e with gameState := { e.gameState with playerHealth := e.base.health } }

/-- `GameEngine.shoot` (the deterministic bookkeeping): push one player
bullet from the player's centre — or `multiShotCount` spread bullets —
and count the shot. -/
def shoot (e : Engine) : Engine :=
  let center := baseGetCenter e.base
  let newBullets : List Bullet :=
    if e.multiShotCount > 1 then
      (List.range e.multiShotCount).map fun i =>
        let offset := ((i : ℚ) - ((e.multiShotCount : ℚ) - 1) / 2) * (3/10)
        { x := center.x, y := center.y, vx := 8, vy := offset * 8,
          width := 10, height := 10, isPlayerBullet := true, damage := 20 }
    else
      [{ x := center.x, y := center.y, vx := 8, vy := 0,
         width := 10, height := 10, isPlayerBullet := true, damage := 20 }]
  { e with
      bullets := e.bullets ++ newBullets
      gameState := { e.gameState with bulletsShot := e.gameState.bulletsShot + 1 } }

/-! ## Claim theorems -/

/-- **C7** (counterexample): two axis-aligned rectangles that merely
touch (the first one's right edge at x = 10 equals the second one's
left edge, with full overlap on the y axis) are reported as NOT
colliding by `rectRectCollision`, contradicting the claim that the test
reports touching rectangles as colliding. -/
theorem claim_C7_counterexample :
    rectRectCollision { x := 0, y := 0 } { width := 10, height := 10 }
      { x := 10, y := 0 } { width := 10, height := 10 } = false ∧
    (0 : ℚ) + 10 = 10 := by
  constructor
  · norm_num [rectRectCollision]
  · norm_num

/-- **C7** (amended): for rectangles of positive size, the collision
test returns true exactly when the x-extents strictly overlap and the
y-extents strictly overlap; rectangles whose boundaries merely touch
(far edge of one equal to the near edge of the other) are reported as
separate, not as colliding. -/
theorem claim_C7_strict_overlap (p1 : Position) (s1 : Size) (p2 : Position)
    (s2 : Size) (hw1 : 0 < s1.width) (hw2 : 0 < s2.width)
    (hh1 : 0 < s1.height) (hh2 : 0 < s2.height) :
    (rectRectCollision p1 s1 p2 s2 = true ↔
      (max p1.x p2.x < min (p1.x + s1.width) (p2.x + s2.width) ∧
       max p1.y p2.y < min (p1.y + s1.height) (p2.y + s2.height))) ∧
    (p1.x + s1.width = p2.x → rectRectCollision p1 s1 p2 s2 = false) := by
  constructor
  · simp only [rectRectCollision, Bool.and_eq_true, decide_eq_true_eq,
      max_lt_iff, lt_min_iff]
    constructor
    · rintro ⟨⟨⟨h1, h2⟩, h3⟩, h4⟩
      refine ⟨⟨⟨by linarith, by linarith⟩, ⟨by linarith, by linarith⟩⟩,
        ⟨⟨by linarith, by linarith⟩, ⟨by linarith, by linarith⟩⟩⟩
    · rintro ⟨⟨⟨h1a, h1b⟩, ⟨h2a, h2b⟩⟩, ⟨⟨h3a, h3b⟩, ⟨h4a, h4b⟩⟩⟩
      refine ⟨⟨⟨by linarith, by linarith⟩, by linarith⟩, by linarith⟩
  · intro htouch
    have hnot : ¬ (rectRectCollision p1 s1 p2 s2 = true) := by
      simp only [rectRectCollision, Bool.and_eq_true, decide_eq_true_eq]
      rintro ⟨⟨⟨-, h2⟩, -⟩, -⟩
      rw [htouch] at h2
      exact lt_irrefl _ h2
    exact Bool.not_eq_true _ |>.mp hnot

/-- **C7** (witness): the amended statement at the touching pair of
10x10 squares. -/
theorem claim_C7_strict_overlap_witness :
    (rectRectCollision { x := 0, y := 0 } { width := 10, height := 10 }
      { x := 10, y := 0 } { width := 10, height := 10 } = true ↔
      (max (0 : ℚ) 10 < min (0 + 10) (10 + 10) ∧
       max (0 : ℚ) 0 < min (0 + 10) (0 + 10))) ∧
    ((0 : ℚ) + 10 = 10 →
      rectRectCollision { x := 0, y := 0 } { width := 10, height := 10 }
        { x := 10, y := 0 } { width := 10, height := 10 } = false) :=
  claim_C7_strict_overlap { x := 0, y := 0 } { width := 10, height := 10 }
    { x := 10, y := 0 } { width := 10, height := 10 }
    (by norm_num) (by norm_num) (by norm_num) (by norm_num)

/-- **C8** (counterexample): from an out-of-range start (y = 1000 on a
600-pixel canvas), `moveUp(600, 1)` leaves the player at y = 993, far
outside `[0, 600 - 60]`, refuting "resulting y is always within
`[0, bound - playerHeight]` regardless of starting position". -/
theorem claim_C8_counterexample :
    ¬ ((moveUp 600 1 { mkBase 800 600 with
        position := { x := 50, y := 1000 } }).position.y ≤ 600 - 60) := by
  norm_num [moveUp, mkBase]

/-- **C8** (amended): provided the player starts inside
`[0, bound - height]`, the speed multiplier is nonnegative, the speed is
nonnegative and the height fits the bound, both `moveUp` and `moveDown`
keep y within `[0, bound - height]`. -/
theorem claim_C8_moves_stay_clamped (b : Base) (bound m : ℚ)
    (hspeed : 0 ≤ b.speed) (hm : 0 ≤ m) (hfit : b.size.height ≤ bound)
    (hlo : 0 ≤ b.position.y) (hhi : b.position.y ≤ bound - b.size.height) :
    (0 ≤ (moveUp bound m b).position.y ∧
     (moveUp bound m b).position.y ≤ bound - (moveUp bound m b).size.height) ∧
    (0 ≤ (moveDown bound m b).position.y ∧
     (moveDown bound m b).position.y ≤ bound - (moveDown bound m b).size.height) := by
  have hsm : 0 ≤ b.speed * m := mul_nonneg hspeed hm
  refine ⟨⟨le_max_left _ _, ?_⟩, ⟨?_, ?_⟩⟩
  · simp only [moveUp]
    exact max_le (by linarith) (by linarith)
  · simp only [moveDown]
    exact le_min (by linarith) (by linarith)
  · simp only [moveDown]
    exact min_le_left _ _

/-- **C8** (witness): the amended statement for the freshly constructed
player on an 800x600 canvas with multiplier 2. -/
theorem claim_C8_moves_stay_clamped_witness :
    (0 ≤ (moveUp 600 2 (mkBase 800 600)).position.y ∧
     (moveUp 600 2 (mkBase 800 600)).position.y ≤
       600 - (moveUp 600 2 (mkBase 800 600)).size.height) ∧
    (0 ≤ (moveDown 600 2 (mkBase 800 600)).position.y ∧
     (moveDown 600 2 (mkBase 800 600)).position.y ≤
       600 - (moveDown 600 2 (mkBase 800 600)).size.height) :=
  claim_C8_moves_stay_clamped (mkBase 800 600) 600 2
    (by norm_num [mkBase]) (by norm_num) (by norm_num [mkBase])
    (by norm_num [mkBase]) (by norm_num [mkBase])

/-- **C6**: `reset()`, from any engine state whatsoever, restores the
score, combo count, combo multiplier, level, player health and
max-health, the kill / shot / hit counters, the pause and game-over
flags, every power-up modifier and expiration entry, and all five
entity collections (plus the boss slot) to exactly the values the
constructor produces: level 1, running, score 0, combo 0, multiplier 1,
health 100/100, all modifiers at baseline, every collection empty. -/
theorem claim_C6_reset_restores_initial (e : Engine) (t t0 : ℤ)
    (w h : ℚ) :
    let r := resetEngine t e
    let i := mkEngine w h t0
    r.gameState.score = 0 ∧ r.gameState.score = i.gameState.score ∧
    r.gameState.level = 1 ∧ r.gameState.level = i.gameState.level ∧
    r.gameState.playerHealth = 100 ∧
      r.gameState.playerHealth = i.gameState.playerHealth ∧
    r.gameState.maxPlayerHealth = 100 ∧
      r.gameState.maxPlayerHealth = i.gameState.maxPlayerHealth ∧
    r.gameState.isGameOver = false ∧ r.gameState.isPaused = false ∧
    r.gameState.enemiesKilled = 0 ∧ r.gameState.bulletsShot = 0 ∧
    r.gameState.bulletsHit = 0 ∧
    r.gameState.combo = 0 ∧ r.gameState.combo = i.gameState.combo ∧
    r.gameState.comboMultiplier = 1 ∧
      r.gameState.comboMultiplier = i.gameState.comboMultiplier ∧
    r.gameState.lastKillTime = 0 ∧
    r.base.health = 100 ∧ r.base.maxHealth = 100 ∧
    r.enemies = [] ∧ r.bullets = [] ∧ r.scorePopups = [] ∧
    r.particles = [] ∧ r.powerUps = [] ∧ r.boss = none ∧
    (∀ ty, r.activePowerUps ty = none) ∧
    r.baseSpeedMultiplier = 1 ∧ r.shootCooldownMultiplier = 1 ∧
    r.hasShield = false ∧ r.multiShotCount = 1 := by
  repeat first
  | exact fun _ => rfl
  | constructor
  | rfl

/-- A damaged enemy whose health did not exceed the damage is dead. -/
lemma enemy_dead_of_le {en : Enemy} {d : ℚ} (hd : en.health ≤ d) :
    enemyIsAlive (enemyTakeDamage en d) = false := by
  simp only [enemyIsAlive, enemyTakeDamage, decide_eq_false_iff_not, not_lt]
  exact max_le le_rfl (by linarith)

/-- Running the player-bullet-vs-enemy pass on an engine holding exactly
one bullet and one enemy, where the player bullet overlaps the enemy
and the hit is fatal: the kill bookkeeping runs once, a score popup for
the awarded points appears, and both the enemy and the bullet are gone. -/
lemma bulletEnemyPass_single_kill (e : Engine) (b : Bullet) (en : Enemy) (t : ℤ)
    (hbl : e.bullets = [b]) (hen : e.enemies = [en])
    (hb : b.isPlayerBullet = true) (hc : bulletEnemyCollision b en = true)
    (hd : en.health ≤ b.damage) :
    bulletEnemyPass t e.bullets.length 0 e =
      { e with
          gameState := (killUpdate e.gameState t).1
          scorePopups := e.scorePopups ++
            [{ x := (enemyGetCenter (enemyTakeDamage en b.damage)).x
               y := (enemyGetCenter (enemyTakeDamage en b.damage)).y
               value := (killUpdate e.gameState t).2
               lifetime := 0
               maxLifetime := 1000 }]
          enemies := []
          bullets := [] } := by
  obtain ⟨base, enemies, bullets, popups, particles, pUps, boss, gs, w, h,
    lst, lps, si, apu, bsm, scm, hs, msc⟩ := e
  simp only at hbl hen
  subst hbl hen
  simp [bulletEnemyPass, innerEnemyLoop, hb, hc, enemy_dead_of_le hd]

/-- **C1**: when a player bullet kills an enemy during the collision
pass of `update()` (engine holding that bullet and that enemy): with a
previous kill strictly less than 2000 ms ago the combo increments and
the multiplier becomes `min(1 + combo*0.1, 3)`; otherwise combo and
multiplier reset to 1; the score grows by
`round(basePoints * multiplier)` with basePoints 500 at level 3 and
`10 * level` otherwise; and the kill and bullet-hit counters each grow
by exactly one. -/
theorem claim_C1_kill_scoring (e : Engine) (b : Bullet) (en : Enemy) (t : ℤ)
    (hbl : e.bullets = [b]) (hen : e.enemies = [en])
    (hb : b.isPlayerBullet = true) (hc : bulletEnemyCollision b en = true)
    (hd : en.health ≤ b.damage) :
    let gs := e.gameState
    let gs2 := (bulletEnemyPass t e.bullets.length 0 e).gameState
    ((t - gs.lastKillTime < 2000 ∧ gs.lastKillTime > 0) →
      gs2.combo = gs.combo + 1 ∧
      gs2.comboMultiplier = min (1 + ((gs.combo + 1 : ℕ) : ℚ) * (1/10)) 3) ∧
    (¬ (t - gs.lastKillTime < 2000 ∧ gs.lastKillTime > 0) →
      gs2.combo = 1 ∧ gs2.comboMultiplier = 1) ∧
    gs2.score = gs.score +
      jsRound ((if gs.level = 3 then (500 : ℚ) else 10 * (gs.level : ℚ)) *
        gs2.comboMultiplier) ∧
    gs2.enemiesKilled = gs.enemiesKilled + 1 ∧
    gs2.bulletsHit = gs.bulletsHit + 1 := by
  intro gs gs2
  have hp := bulletEnemyPass_single_kill e b en t hbl hen hb hc hd
  have hgs2 : gs2 = (killUpdate e.gameState t).1 := by
    simp only [gs2, hp]
  rw [hgs2]
  by_cases hcond : t - e.gameState.lastKillTime < 2000 ∧ e.gameState.lastKillTime > 0
  · simp [killUpdate, hcond, gs]
  · simp [killUpdate, hcond, gs]

/-- A sample melee-enemy behaviour descriptor (the STARKENT level-1
configuration from `EnemyFactory`). -/
def sampleConfig : EnemyConfig :=
  { health := 30, speed := 3, width := 50, height := 50, canShoot := false,
    shootInterval := 0, level := 1, bulletsPerShot := 1, bulletSpeed := 4 }

/-- A sample enemy at (65, 275) with 20 health left. -/
def sampleFoe : Enemy :=
  { position := { x := 65, y := 275 }, size := { width := 50, height := 50 },
    health := 20, maxHealth := 30, speed := 3, config := sampleConfig,
    lastShotTime := 0, verticalDirection := 1 }

/-- A sample player bullet at (60, 280) overlapping `sampleFoe`. -/
def sampleShot : Bullet :=
  { x := 60, y := 280, vx := 8, vy := 0, width := 10, height := 10,
    isPlayerBullet := true, damage := 20 }

/-- **C1** (witness): the kill-scoring theorem at a concrete engine, a
fresh 800x600 engine holding one 20-damage player bullet overlapping a
20-health enemy, at time 100. -/
theorem claim_C1_kill_scoring_witness :
    let e : Engine := { mkEngine 800 600 0 with
      bullets := [sampleShot], enemies := [sampleFoe] }
    let gs := e.gameState
    let gs2 := (bulletEnemyPass 100 e.bullets.length 0 e).gameState
    ((100 - gs.lastKillTime < 2000 ∧ gs.lastKillTime > 0) →
      gs2.combo = gs.combo + 1 ∧
      gs2.comboMultiplier = min (1 + ((gs.combo + 1 : ℕ) : ℚ) * (1/10)) 3) ∧
    (¬ (100 - gs.lastKillTime < 2000 ∧ gs.lastKillTime > 0) →
      gs2.combo = 1 ∧ gs2.comboMultiplier = 1) ∧
    gs2.score = gs.score +
      jsRound ((if gs.level = 3 then (500 : ℚ) else 10 * (gs.level : ℚ)) *
        gs2.comboMultiplier) ∧
    gs2.enemiesKilled = gs.enemiesKilled + 1 ∧
    gs2.bulletsHit = gs.bulletsHit + 1 :=
  claim_C1_kill_scoring
    { mkEngine 800 600 0 with bullets := [sampleShot], enemies := [sampleFoe] }
    sampleShot sampleFoe 100 rfl rfl rfl
    (by norm_num [bulletEnemyCollision, rectRectCollision, sampleShot, sampleFoe])
    (by norm_num [sampleShot, sampleFoe])

/-- A damaged enemy whose health exceeded the damage is still alive. -/
lemma enemy_alive_of_lt {en : Enemy} {d : ℚ} (hd : d < en.health) :
    enemyIsAlive (enemyTakeDamage en d) = true := by
  simp only [enemyIsAlive, enemyTakeDamage, decide_eq_true_eq]
  exact lt_max_of_lt_right (by linarith)

/-- **C10**: when one player bullet overlaps two living enemies in the
same frame (engine holding that bullet, one further bullet, and the two
enemies, with both hits non-fatal), the collision pass applies the
bullet's damage to BOTH enemies, and the remembered-index splice runs
once per overlapping enemy — so the second splice removes the other,
non-colliding bullet, leaving the bullet collection empty. -/
theorem claim_C10_multi_overlap_double_splice (e : Engine) (b c : Bullet)
    (en1 en2 : Enemy) (t : ℤ)
    (hbl : e.bullets = [b, c]) (hen : e.enemies = [en1, en2])
    (hb : b.isPlayerBullet = true)
    (hc1 : bulletEnemyCollision b en1 = true)
    (hc2 : bulletEnemyCollision b en2 = true)
    (hs1 : b.damage < en1.health) (hs2 : b.damage < en2.health) :
    bulletEnemyPass t e.bullets.length 0 e =
      { e with
          enemies := [enemyTakeDamage en1 b.damage, enemyTakeDamage en2 b.damage]
          bullets := [] } := by
  obtain ⟨base, enemies, bullets, popups, particles, pUps, boss, gs, w, h,
    lst, lps, si, apu, bsm, scm, hs, msc⟩ := e
  simp only at hbl hen
  subst hbl hen
  simp [bulletEnemyPass, innerEnemyLoop, hb, hc1, hc2,
    enemy_alive_of_lt hs1, enemy_alive_of_lt hs2]

/-- A sample enemy with full 30 health (survives a 20-damage hit). -/
def sampleTank : Enemy :=
  { position := { x := 65, y := 275 }, size := { width := 50, height := 50 },
    health := 30, maxHealth := 30, speed := 3, config := sampleConfig,
    lastShotTime := 0, verticalDirection := 1 }

/-- A sample enemy bullet far away from everything. -/
def sampleStray : Bullet :=
  { x := 700, y := 30, vx := -4, vy := 0, width := 8, height := 8,
    isPlayerBullet := false, damage := 10 }

/-- A concrete engine holding the overlapping player bullet, a stray
enemy bullet, and two 30-health enemies at the same spot. -/
def sampleCrowd : Engine :=
  { mkEngine 800 600 0 with
      bullets := [sampleShot, sampleStray]
      enemies := [sampleTank, sampleTank] }

/-- **C10** (witness): the double-splice theorem at `sampleCrowd`. -/
theorem claim_C10_multi_overlap_double_splice_witness :
    bulletEnemyPass 100 sampleCrowd.bullets.length 0 sampleCrowd =
      { sampleCrowd with
          enemies := [enemyTakeDamage sampleTank sampleShot.damage,
            enemyTakeDamage sampleTank sampleShot.damage]
          bullets := [] } :=
  claim_C10_multi_overlap_double_splice sampleCrowd
    sampleShot sampleStray sampleTank sampleTank 100 rfl rfl rfl
    (by norm_num [bulletEnemyCollision, rectRectCollision, sampleShot, sampleTank])
    (by norm_num [bulletEnemyCollision, rectRectCollision, sampleShot, sampleTank])
    (by norm_num [sampleShot, sampleTank])
    (by norm_num [sampleShot, sampleTank])

/-- **C4**: when an enemy bullet overlaps the player (engine holding
that bullet, game not yet over, health nonnegative): with the shield
active the shield flag clears and health is unchanged; otherwise health
drops by the bullet damage, floored at 0; the mirrored
`gameState.playerHealth` follows; the bullet is removed; and game-over
is set exactly when the resulting player health is 0. -/
theorem claim_C4_enemy_bullet_hit (e : Engine) (b : Bullet)
    (hbl : e.bullets = [b]) (hb : b.isPlayerBullet = false)
    (hc : bulletBaseCollision b e.base = true)
    (hover : e.gameState.isGameOver = false) (hh : 0 ≤ e.base.health) :
    let e2 := bulletBasePass e.bullets.length 0 e
    (e.hasShield = true → e2.hasShield = false ∧
      e2.base.health = e.base.health ∧
      e2.gameState.playerHealth = e.base.health) ∧
    (e.hasShield = false → e2.base.health = max 0 (e.base.health - b.damage) ∧
      e2.gameState.playerHealth = max 0 (e.base.health - b.damage)) ∧
    e2.bullets = [] ∧
    (e2.gameState.isGameOver = true ↔ e2.base.health = 0) := by
  intro e2
  obtain ⟨base, enemies, bullets, popups, particles, pUps, boss, gs, w, h,
    lst, lps, si, apu, bsm, scm, hshield, msc⟩ := e
  simp only at hbl hc hover hh
  subst hbl
  cases hshield with
  | false =>
    by_cases h0 : 0 < base.health - b.damage
    · have hne : ¬ (max 0 (base.health - b.damage) = 0) := by
        rw [max_eq_right h0.le]
        exact ne_of_gt h0
      simp_all [e2, bulletBasePass, baseTakeDamage, baseIsAlive, hb, hc,
        lt_max_of_lt_right h0]
    · have hmax : max 0 (base.health - b.damage) = 0 :=
        max_eq_left (by linarith)
      simp_all [e2, bulletBasePass, baseTakeDamage, baseIsAlive, hb, hc]
  | true =>
    by_cases h0 : 0 < base.health
    · simp_all [e2, bulletBasePass, baseIsAlive, hb, hc, ne_of_gt h0]
    · have hz : base.health = 0 := le_antisymm (by linarith) hh
      simp_all [e2, bulletBasePass, baseIsAlive, hb, hc]

/-- A concrete enemy bullet overlapping the freshly constructed player. -/
def sampleHit : Bullet :=
  { x := 55, y := 280, vx := -4, vy := 0, width := 8, height := 8,
    isPlayerBullet := false, damage := 10 }

/-- A fresh 800x600 engine holding only `sampleHit`. -/
def sampleUnderFire : Engine := { mkEngine 800 600 0 with bullets := [sampleHit] }

/-- **C4** (witness): the enemy-bullet-hit theorem at `sampleUnderFire`
(player at health 100, no shield, bullet damage 10). -/
theorem claim_C4_enemy_bullet_hit_witness :
    let e2 := bulletBasePass sampleUnderFire.bullets.length 0 sampleUnderFire
    (sampleUnderFire.hasShield = true → e2.hasShield = false ∧
      e2.base.health = sampleUnderFire.base.health ∧
      e2.gameState.playerHealth = sampleUnderFire.base.health) ∧
    (sampleUnderFire.hasShield = false →
      e2.base.health = max 0 (sampleUnderFire.base.health - sampleHit.damage) ∧
      e2.gameState.playerHealth =
        max 0 (sampleUnderFire.base.health - sampleHit.damage)) ∧
    e2.bullets = [] ∧
    (e2.gameState.isGameOver = true ↔ e2.base.health = 0) :=
  claim_C4_enemy_bullet_hit sampleUnderFire sampleHit rfl rfl
    (by norm_num [bulletBaseCollision, rectRectCollision, sampleHit,
      sampleUnderFire, mkEngine, mkBase])
    rfl
    (by norm_num [sampleUnderFire, mkEngine, mkBase])

/-- A melee (level-1, non-firing) enemy with full health overlapping
the freshly constructed player after one movement step. -/
def meleeFoe : Enemy :=
  { position := { x := 60, y := 270 }, size := { width := 50, height := 50 },
    health := 30, maxHealth := 30, speed := 3, config := sampleConfig,
    lastShotTime := 0, verticalDirection := 1 }

/-- A fresh 800x600 engine with only `meleeFoe` in play. -/
def meleeScene : Engine := { mkEngine 800 600 0 with enemies := [meleeFoe] }

/-- **C3** (failing input): one `update()` at t = 100 on `meleeScene`.
The melee contact force-kills the enemy (`takeDamage(100)` leaves it at
exactly 0 health) and deals 5 damage to the player — yet the enemy is
NOT removed from the enemy collection by the end of that same
`update()` call: it is still there, with health 0.  Removal only ever
happens in the bullet-kill branch or the off-screen filter, so the
claim's removal guarantee fails for the melee path (the source's own
comment says "Remove enemy after melee hit"). -/
theorem claim_C3_melee_zero_health_not_removed :
    (update 100 none (fun _ => []) meleeScene).enemies.map Enemy.health = [0] ∧
    (update 100 none (fun _ => []) meleeScene).enemies.length = 1 ∧
    (update 100 none (fun _ => []) meleeScene).base.health = 95 := by
  norm_num [update, mkEngine, mkBase, meleeScene, meleeFoe, sampleConfig,
    spawnEnemies, enemyPhase, enemyStep, enemyUpdate, enemyCanShoot,
    enemyBaseCollision, rectRectCollision, baseTakeDamage, enemyTakeDamage,
    updateCombo, agePopups, ageParticles, bulletOnScreen, enemyIsOffScreen,
    bulletEnemyPass, bulletBasePass, updatePowerUps, expirePowerUp,
    levelDurations, nextLevel]

/-- The modifier observable associated with a power-up type, read off
the engine as one rational (flags and counts cast). -/
def modifierOf (e : Engine) : PowerUpType → ℚ
  | .speedBoost => e.baseSpeedMultiplier
  | .rapidFire => e.shootCooldownMultiplier
  | .shield => if e.hasShield then 1 else 0
  | .multiShot => (e.multiShotCount : ℚ)

/-- The baseline value of each modifier observable. -/
def modifierBaseline : PowerUpType → ℚ
  | .speedBoost => 1
  | .rapidFire => 1
  | .shield => 0
  | .multiShot => 1

/-- The boosted value each power-up applies to its modifier. -/
def modifierBoosted : PowerUpType → ℚ
  | .speedBoost => 3/2
  | .rapidFire => 1/2
  | .shield => 1
  | .multiShot => 3

/-- Sweeping a different type leaves a type's expiration entry alone. -/
lemma expirePowerUp_ne_map {ty ty2 : PowerUpType} (h : ty ≠ ty2) (t : ℤ)
    (e : Engine) :
    (expirePowerUp t ty2 e).activePowerUps ty = e.activePowerUps ty := by
  unfold expirePowerUp
  cases hm : e.activePowerUps ty2 with
  | none => rfl
  | some exp2 =>
    by_cases ht : t ≥ exp2
    · simp only [ht, if_pos]
      simp only [if_neg h]
      cases ty2 <;> rfl
    · simp [ht]

/-- Sweeping a different type leaves a type's modifier observable alone. -/
lemma expirePowerUp_ne_modifier {ty ty2 : PowerUpType} (h : ty ≠ ty2) (t : ℤ)
    (e : Engine) :
    modifierOf (expirePowerUp t ty2 e) ty = modifierOf e ty := by
  unfold expirePowerUp
  cases hm : e.activePowerUps ty2 with
  | none => rfl
  | some exp2 =>
    by_cases ht : t ≥ exp2
    · simp only [ht, if_pos]
      cases ty2 <;> cases ty <;> first | rfl | exact absurd rfl h
    · simp [ht]

/-- The pickup-aging tail of `updatePowerUps` touches neither the
expiration map nor the modifiers. -/
lemma updatePowerUps_eq_sweep (t : ℤ) (e : Engine) :
    (updatePowerUps t e).activePowerUps =
      (expirePowerUp t .multiShot (expirePowerUp t .shield
        (expirePowerUp t .rapidFire (expirePowerUp t .speedBoost e)))).activePowerUps ∧
    modifierOf (updatePowerUps t e) =
      modifierOf (expirePowerUp t .multiShot (expirePowerUp t .shield
        (expirePowerUp t .rapidFire (expirePowerUp t .speedBoost e)))) := by
  constructor
  · rfl
  · funext ty
    cases ty <;> rfl

/-- Sweeping a type that is active and expired deactivates and deletes
it; sweeping it before its expiration changes nothing at all. -/
lemma expirePowerUp_self {ty : PowerUpType} {e : Engine} {exp : ℤ} (t : ℤ)
    (hmap : e.activePowerUps ty = some exp) :
    (exp ≤ t → (expirePowerUp t ty e).activePowerUps ty = none ∧
      modifierOf (expirePowerUp t ty e) ty = modifierBaseline ty) ∧
    (t < exp → expirePowerUp t ty e = e) := by
  constructor
  · intro hle
    unfold expirePowerUp
    rw [hmap]
    simp only [ge_iff_le, hle, if_pos]
    constructor
    · simp
    · cases ty <;> rfl
  · intro hlt
    unfold expirePowerUp
    rw [hmap]
    simp [not_le.mpr hlt]

/-- **C9**: collecting a power-up of type `ty` records expiration
`now + 10000` and applies its boosted modifier; collecting the same
type again overwrites the single recorded expiration (no stacking, the
map holds at most one entry per type); and during the expiration sweep
the type's modifier returns to its baseline — with the entry deleted —
exactly when the sweep time has reached the recorded expiration, while
a sweep strictly before the expiration leaves both the entry and the
modifier untouched. -/
theorem claim_C9_powerup_lifecycle (e : Engine) (t t1 t2 : ℤ)
    (ty : PowerUpType) (exp : ℤ) (hmap : e.activePowerUps ty = some exp) :
    ((activatePowerUp t1 ty e).activePowerUps ty = some (t1 + 10000)) ∧
    (modifierOf (activatePowerUp t1 ty e) ty = modifierBoosted ty) ∧
    ((activatePowerUp t2 ty (activatePowerUp t1 ty e)).activePowerUps ty =
      some (t2 + 10000)) ∧
    (exp ≤ t → (updatePowerUps t e).activePowerUps ty = none ∧
      modifierOf (updatePowerUps t e) ty = modifierBaseline ty) ∧
    (t < exp → (updatePowerUps t e).activePowerUps ty = some exp ∧
      modifierOf (updatePowerUps t e) ty = modifierOf e ty) := by
  obtain ⟨hsweepMap, hsweepMod⟩ := updatePowerUps_eq_sweep t e
  have hmod := congrFun hsweepMod
  refine ⟨?_, ?_, ?_, fun hle => ⟨?_, ?_⟩, fun hlt => ⟨?_, ?_⟩⟩
  · cases ty <;> simp [activatePowerUp]
  · cases ty <;> simp [activatePowerUp, modifierOf, modifierBoosted]
  · cases ty <;> simp [activatePowerUp]
  · rw [hsweepMap]
    cases ty
    case speedBoost =>
      rw [expirePowerUp_ne_map (by decide), expirePowerUp_ne_map (by decide),
        expirePowerUp_ne_map (by decide)]
      exact ((expirePowerUp_self t hmap).1 hle).1
    case rapidFire =>
      rw [expirePowerUp_ne_map (by decide), expirePowerUp_ne_map (by decide)]
      exact ((expirePowerUp_self t
        ((expirePowerUp_ne_map (by decide) t e).trans hmap)).1 hle).1
    case shield =>
      rw [expirePowerUp_ne_map (by decide)]
      exact ((expirePowerUp_self t
        (((expirePowerUp_ne_map (by decide) t _).trans
          ((expirePowerUp_ne_map (by decide) t e))).trans hmap)).1 hle).1
    case multiShot =>
      exact ((expirePowerUp_self t
        ((((expirePowerUp_ne_map (by decide) t _).trans
          ((expirePowerUp_ne_map (by decide) t _))).trans
          ((expirePowerUp_ne_map (by decide) t e))).trans hmap)).1 hle).1
  · rw [hmod ty]
    cases ty
    case speedBoost =>
      rw [expirePowerUp_ne_modifier (by decide), expirePowerUp_ne_modifier (by decide),
        expirePowerUp_ne_modifier (by decide)]
      exact ((expirePowerUp_self t hmap).1 hle).2
    case rapidFire =>
      rw [expirePowerUp_ne_modifier (by decide), expirePowerUp_ne_modifier (by decide)]
      exact ((expirePowerUp_self t
        ((expirePowerUp_ne_map (by decide) t e).trans hmap)).1 hle).2
    case shield =>
      rw [expirePowerUp_ne_modifier (by decide)]
      exact ((expirePowerUp_self t
        (((expirePowerUp_ne_map (by decide) t _).trans
          ((expirePowerUp_ne_map (by decide) t e))).trans hmap)).1 hle).2
    case multiShot =>
      exact ((expirePowerUp_self t
        ((((expirePowerUp_ne_map (by decide) t _).trans
          ((expirePowerUp_ne_map (by decide) t _))).trans
          ((expirePowerUp_ne_map (by decide) t e))).trans hmap)).1 hle).2
  · rw [hsweepMap]
    cases ty
    case speedBoost =>
      rw [expirePowerUp_ne_map (by decide), expirePowerUp_ne_map (by decide),
        expirePowerUp_ne_map (by decide), (expirePowerUp_self t hmap).2 hlt]
      exact hmap
    case rapidFire =>
      rw [expirePowerUp_ne_map (by decide), expirePowerUp_ne_map (by decide)]
      have hm1 : (expirePowerUp t .speedBoost e).activePowerUps .rapidFire = some exp :=
        (expirePowerUp_ne_map (by decide) t e).trans hmap
      rw [(expirePowerUp_self t hm1).2 hlt]
      exact hm1
    case shield =>
      rw [expirePowerUp_ne_map (by decide)]
      have hm1 : (expirePowerUp t .rapidFire
          (expirePowerUp t .speedBoost e)).activePowerUps .shield = some exp :=
        ((expirePowerUp_ne_map (by decide) t _).trans
          ((expirePowerUp_ne_map (by decide) t e))).trans hmap
      rw [(expirePowerUp_self t hm1).2 hlt]
      exact hm1
    case multiShot =>
      have hm1 : (expirePowerUp t .shield (expirePowerUp t .rapidFire
          (expirePowerUp t .speedBoost e))).activePowerUps .multiShot = some exp :=
        (((expirePowerUp_ne_map (by decide) t _).trans
          ((expirePowerUp_ne_map (by decide) t _))).trans
          ((expirePowerUp_ne_map (by decide) t e))).trans hmap
      rw [(expirePowerUp_self t hm1).2 hlt]
      exact hm1
  · rw [hmod ty]
    cases ty
    case speedBoost =>
      rw [expirePowerUp_ne_modifier (by decide), expirePowerUp_ne_modifier (by decide),
        expirePowerUp_ne_modifier (by decide), (expirePowerUp_self t hmap).2 hlt]
    case rapidFire =>
      rw [expirePowerUp_ne_modifier (by decide), expirePowerUp_ne_modifier (by decide)]
      have hm1 : (expirePowerUp t .speedBoost e).activePowerUps .rapidFire = some exp :=
        (expirePowerUp_ne_map (by decide) t e).trans hmap
      rw [(expirePowerUp_self t hm1).2 hlt]
      exact expirePowerUp_ne_modifier (by decide) t e
    case shield =>
      rw [expirePowerUp_ne_modifier (by decide)]
      have hm1 : (expirePowerUp t .rapidFire
          (expirePowerUp t .speedBoost e)).activePowerUps .shield = some exp :=
        ((expirePowerUp_ne_map (by decide) t _).trans
          ((expirePowerUp_ne_map (by decide) t e))).trans hmap
      rw [(expirePowerUp_self t hm1).2 hlt]
      rw [expirePowerUp_ne_modifier (by decide)]
      exact expirePowerUp_ne_modifier (by decide) t e
    case multiShot =>
      have hm1 : (expirePowerUp t .shield (expirePowerUp t .rapidFire
          (expirePowerUp t .speedBoost e))).activePowerUps .multiShot = some exp :=
        (((expirePowerUp_ne_map (by decide) t _).trans
          ((expirePowerUp_ne_map (by decide) t _))).trans
          ((expirePowerUp_ne_map (by decide) t e))).trans hmap
      rw [(expirePowerUp_self t hm1).2 hlt]
      rw [expirePowerUp_ne_modifier (by decide), expirePowerUp_ne_modifier (by decide)]
      exact expirePowerUp_ne_modifier (by decide) t e

/-- An engine that just collected a speed boost at time 0. -/
def sampleBoosted : Engine :=
  activatePowerUp 0 PowerUpType.speedBoost (mkEngine 800 600 0)

/-- **C9** (witness): the power-up lifecycle theorem on `sampleBoosted`
(speed boost recorded until 10000), swept at time 20000. -/
theorem claim_C9_powerup_lifecycle_witness :
    ((activatePowerUp 5 PowerUpType.speedBoost sampleBoosted).activePowerUps
        PowerUpType.speedBoost = some (5 + 10000)) ∧
    (modifierOf (activatePowerUp 5 PowerUpType.speedBoost sampleBoosted)
        PowerUpType.speedBoost = modifierBoosted PowerUpType.speedBoost) ∧
    ((activatePowerUp 7 PowerUpType.speedBoost
        (activatePowerUp 5 PowerUpType.speedBoost sampleBoosted)).activePowerUps
        PowerUpType.speedBoost = some (7 + 10000)) ∧
    ((10000 : ℤ) ≤ 20000 →
      (updatePowerUps 20000 sampleBoosted).activePowerUps
          PowerUpType.speedBoost = none ∧
      modifierOf (updatePowerUps 20000 sampleBoosted) PowerUpType.speedBoost =
        modifierBaseline PowerUpType.speedBoost) ∧
    ((20000 : ℤ) < 10000 →
      (updatePowerUps 20000 sampleBoosted).activePowerUps
          PowerUpType.speedBoost = some 10000 ∧
      modifierOf (updatePowerUps 20000 sampleBoosted) PowerUpType.speedBoost =
        modifierOf sampleBoosted PowerUpType.speedBoost) :=
  claim_C9_powerup_lifecycle sampleBoosted 20000 5 7 PowerUpType.speedBoost
    10000 rfl

/-- The kill bookkeeping leaves the level untouched. -/
lemma killUpdate_level (gs : GameState) (t : ℤ) :
    (killUpdate gs t).1.level = gs.level := rfl

/-- The multiplier the kill bookkeeping writes always lies in `[1, 3]`. -/
lemma killUpdate_mult_bound (gs : GameState) (t : ℤ) :
    1 ≤ (killUpdate gs t).1.comboMultiplier ∧
    (killUpdate gs t).1.comboMultiplier ≤ 3 := by
  simp only [killUpdate]
  split
  · constructor
    · refine le_min ?_ (by norm_num)
      have h : (0 : ℚ) ≤ ((gs.combo + 1 : ℕ) : ℚ) * (1/10) := by positivity
      linarith
    · exact min_le_right _ _
  · norm_num

/-- The inner collision loop leaves the level untouched. -/
lemma innerEnemyLoop_level (bullet : Bullet) (bulletIndex : ℕ) (t : ℤ) :
    ∀ fuel j e, (innerEnemyLoop bullet bulletIndex t fuel j e).gameState.level =
      e.gameState.level := by
  intro fuel
  induction fuel with
  | zero => intro j e; rfl
  | succ fuel ih =>
    intro j e
    simp only [innerEnemyLoop]
    split
    · split
      · split
        · rw [ih]
          exact killUpdate_level _ _
        · rw [ih]
      · rw [ih]
    · rw [ih]

/-- The inner collision loop keeps the multiplier inside `[1, 3]`. -/
lemma innerEnemyLoop_mult (bullet : Bullet) (bulletIndex : ℕ) (t : ℤ) :
    ∀ fuel j e, 1 ≤ e.gameState.comboMultiplier →
      e.gameState.comboMultiplier ≤ 3 →
      1 ≤ (innerEnemyLoop bullet bulletIndex t fuel j e).gameState.comboMultiplier ∧
      (innerEnemyLoop bullet bulletIndex t fuel j e).gameState.comboMultiplier ≤ 3 := by
  intro fuel
  induction fuel with
  | zero => intro j e h1 h3; exact ⟨h1, h3⟩
  | succ fuel ih =>
    intro j e h1 h3
    simp only [innerEnemyLoop]
    split
    · split
      · split
        · exact ih (j + 1) _ (killUpdate_mult_bound _ _).1 (killUpdate_mult_bound _ _).2
        · exact ih (j + 1) _ h1 h3
      · exact ih (j + 1) _ h1 h3
    · exact ih (j + 1) _ h1 h3

/-- The player-bullet-vs-enemy pass leaves the level untouched. -/
lemma bulletEnemyPass_level (t : ℤ) :
    ∀ fuel i e, (bulletEnemyPass t fuel i e).gameState.level =
      e.gameState.level := by
  intro fuel
  induction fuel with
  | zero => intro i e; rfl
  | succ fuel ih =>
    intro i e
    simp only [bulletEnemyPass]
    split
    · rw [ih]
      split
      · rw [innerEnemyLoop_level]
      · rfl
    · rw [ih]

/-- The player-bullet-vs-enemy pass keeps the multiplier inside `[1, 3]`. -/
lemma bulletEnemyPass_mult (t : ℤ) :
    ∀ fuel i e, 1 ≤ e.gameState.comboMultiplier →
      e.gameState.comboMultiplier ≤ 3 →
      1 ≤ (bulletEnemyPass t fuel i e).gameState.comboMultiplier ∧
      (bulletEnemyPass t fuel i e).gameState.comboMultiplier ≤ 3 := by
  intro fuel
  induction fuel with
  | zero => intro i e h1 h3; exact ⟨h1, h3⟩
  | succ fuel ih =>
    intro i e h1 h3
    simp only [bulletEnemyPass]
    split
    · apply ih
      · split
        · exact (innerEnemyLoop_mult _ _ t _ 0 _ h1 h3).1
        · exact h1
      · split
        · exact (innerEnemyLoop_mult _ _ t _ 0 _ h1 h3).2
        · exact h3
    · exact ih (i + 1) _ h1 h3

/-- The enemy-bullet-vs-player pass changes neither the level, nor the
combo count, nor the multiplier. -/
lemma bulletBasePass_combo :
    ∀ fuel i e, (bulletBasePass fuel i e).gameState.level = e.gameState.level ∧
      (bulletBasePass fuel i e).gameState.comboMultiplier =
        e.gameState.comboMultiplier := by
  intro fuel
  induction fuel with
  | zero => intro i e; exact ⟨rfl, rfl⟩
  | succ fuel ih =>
    intro i e
    simp only [bulletBasePass]
    split
    · split
      · constructor
        · rw [(ih _ _).1]
          split
          · split <;> rfl
          · split <;> rfl
        · rw [(ih _ _).2]
          split
          · split <;> rfl
          · split <;> rfl
      · exact ih (i + 1) _
    · exact ih (i + 1) _

/-- One step of the enemy loop changes neither the level nor the
multiplier. -/
lemma enemyStep_gs (t : ℤ) (orc : Enemy → List Bullet)
    (acc : Engine × List Enemy) (en : Enemy) :
    (enemyStep t orc acc en).1.gameState.level = acc.1.gameState.level ∧
    (enemyStep t orc acc en).1.gameState.comboMultiplier =
      acc.1.gameState.comboMultiplier := by
  simp only [enemyStep]
  split
  · constructor <;> (split <;> rfl)
  · constructor <;> (split <;> rfl)

/-- The enemy loop changes neither the level nor the multiplier. -/
lemma enemyPhase_gs (t : ℤ) (orc : Enemy → List Bullet) (e : Engine) :
    (enemyPhase t orc e).gameState.level = e.gameState.level ∧
    (enemyPhase t orc e).gameState.comboMultiplier =
      e.gameState.comboMultiplier := by
  unfold enemyPhase
  suffices h : ∀ (l : List Enemy) (acc : Engine × List Enemy),
      (l.foldl (enemyStep t orc) acc).1.gameState.level =
        acc.1.gameState.level ∧
      (l.foldl (enemyStep t orc) acc).1.gameState.comboMultiplier =
        acc.1.gameState.comboMultiplier by
    exact h e.enemies _
  intro l
  induction l with
  | nil => intro acc; exact ⟨rfl, rfl⟩
  | cons en l ih =>
    intro acc
    simp only [List.foldl_cons]
    refine ⟨((ih _).1).trans (enemyStep_gs t orc acc en).1,
      ((ih _).2).trans (enemyStep_gs t orc acc en).2⟩

/-- `spawnEnemies` does not touch the game state. -/
lemma spawnEnemies_gameState (t : ℤ) (sp : Option Enemy) (e : Engine) :
    (spawnEnemies t sp e).gameState = e.gameState := by
  simp only [spawnEnemies]
  split <;> rfl

/-- `expirePowerUp` does not touch the game state. -/
lemma expirePowerUp_gameState (t : ℤ) (ty : PowerUpType) (e : Engine) :
    (expirePowerUp t ty e).gameState = e.gameState := by
  simp only [expirePowerUp]
  split
  · split
    · cases ty <;> rfl
    · rfl
  · rfl

/-- `updatePowerUps` does not touch the game state. -/
lemma updatePowerUps_gameState (t : ℤ) (e : Engine) :
    (updatePowerUps t e).gameState = e.gameState := by
  unfold updatePowerUps
  rw [expirePowerUp_gameState, expirePowerUp_gameState, expirePowerUp_gameState,
    expirePowerUp_gameState]

/-- Corollary: the enemy-bullet-vs-player pass keeps the level. -/
lemma bulletBasePass_level (fuel i : ℕ) (e : Engine) :
    (bulletBasePass fuel i e).gameState.level = e.gameState.level :=
  (bulletBasePass_combo fuel i e).1

/-- Corollary: the enemy-bullet-vs-player pass keeps the multiplier. -/
lemma bulletBasePass_mult_eq (fuel i : ℕ) (e : Engine) :
    (bulletBasePass fuel i e).gameState.comboMultiplier =
      e.gameState.comboMultiplier :=
  (bulletBasePass_combo fuel i e).2

/-- Corollary: the enemy loop keeps the level. -/
lemma enemyPhase_level (t : ℤ) (orc : Enemy → List Bullet) (e : Engine) :
    (enemyPhase t orc e).gameState.level = e.gameState.level :=
  (enemyPhase_gs t orc e).1

/-- Corollary: the enemy loop keeps the multiplier. -/
lemma enemyPhase_mult (t : ℤ) (orc : Enemy → List Bullet) (e : Engine) :
    (enemyPhase t orc e).gameState.comboMultiplier =
      e.gameState.comboMultiplier :=
  (enemyPhase_gs t orc e).2

/-- The combo decay keeps the level. -/
lemma updateCombo_level (t : ℤ) (gs : GameState) :
    (updateCombo t gs).level = gs.level := by
  simp only [updateCombo]
  split <;> rfl

/-- A paused or finished game ignores `update` entirely. -/
lemma update_paused (t : ℤ) (sp : Option Enemy) (orc : Enemy → List Bullet)
    (e : Engine) (h : e.gameState.isPaused = true ∨ e.gameState.isGameOver = true) :
    update t sp orc e = e := by
  unfold update
  exact if_pos h

/-- A running game whose level timer has elapsed steps straight into
`nextLevel`. -/
lemma update_transition (t : ℤ) (sp : Option Enemy) (orc : Enemy → List Bullet)
    (e : Engine) (hp : e.gameState.isPaused = false)
    (hgo : e.gameState.isGameOver = false)
    (h : t - e.gameState.levelStartTime ≥ e.gameState.levelDuration) :
    update t sp orc e = nextLevel t e := by
  unfold update
  rw [if_neg (by simp [hp, hgo]), if_pos h]

/-- A running game whose level timer has not elapsed keeps its level
through the whole `update`. -/
lemma update_level_no_transition (t : ℤ) (sp : Option Enemy)
    (orc : Enemy → List Bullet) (e : Engine)
    (hp : e.gameState.isPaused = false) (hgo : e.gameState.isGameOver = false)
    (hlt : t - e.gameState.levelStartTime < e.gameState.levelDuration) :
    (update t sp orc e).gameState.level = e.gameState.level := by
  unfold update
  rw [if_neg (by simp [hp, hgo]), if_neg (not_le.mpr hlt)]
  simp only [updatePowerUps_gameState, bulletBasePass_level,
    bulletEnemyPass_level, updateCombo_level, enemyPhase_level,
    spawnEnemies_gameState]

/-- **C5**: with the game running, `update` steps into `nextLevel`
exactly when the elapsed wall-clock time since the level start has
reached the configured level duration, and otherwise keeps the level;
the level is monotonically non-decreasing under `update` and never
exceeds 3; `nextLevel` out of level 2 — and only out of level 2 —
restores player health and max-health to 100; and `nextLevel` at
level 3 sets the game-over flag instead of incrementing the level. -/
theorem claim_C5_level_transitions (e : Engine) (t : ℤ) (sp : Option Enemy)
    (orc : Enemy → List Bullet)
    (hp : e.gameState.isPaused = false) (hgo : e.gameState.isGameOver = false)
    (h3 : e.gameState.level ≤ 3) :
    ((t - e.gameState.levelStartTime ≥ e.gameState.levelDuration →
        update t sp orc e = nextLevel t e) ∧
      (t - e.gameState.levelStartTime < e.gameState.levelDuration →
        (update t sp orc e).gameState.level = e.gameState.level)) ∧
    (e.gameState.level ≤ (nextLevel t e).gameState.level ∧
      (nextLevel t e).gameState.level ≤ 3) ∧
    (e.gameState.level ≤ (update t sp orc e).gameState.level ∧
      (update t sp orc e).gameState.level ≤ 3) ∧
    (e.gameState.level = 2 → (nextLevel t e).base.health = 100 ∧
      (nextLevel t e).base.maxHealth = 100 ∧
      (nextLevel t e).gameState.playerHealth = 100 ∧
      (nextLevel t e).gameState.maxPlayerHealth = 100) ∧
    (e.gameState.level ≠ 2 → (nextLevel t e).base.health = e.base.health ∧
      (nextLevel t e).gameState.playerHealth = e.gameState.playerHealth) ∧
    (¬ e.gameState.level < 3 → (nextLevel t e).gameState.isGameOver = true ∧
      (nextLevel t e).gameState.level = e.gameState.level) := by
  have hnl_mono : e.gameState.level ≤ (nextLevel t e).gameState.level := by
    simp only [nextLevel]
    split
    · split <;> simp
    · simp
  have hnl_le3 : (nextLevel t e).gameState.level ≤ 3 := by
    simp only [nextLevel]
    split
    · rename_i hlt3
      split <;> simp <;> omega
    · simpa using h3
  refine ⟨⟨fun hge => update_transition t sp orc e hp hgo hge,
      fun hlt => update_level_no_transition t sp orc e hp hgo hlt⟩,
    ⟨hnl_mono, hnl_le3⟩, ?_, ?_, ?_, ?_⟩
  · by_cases htr : t - e.gameState.levelStartTime ≥ e.gameState.levelDuration
    · rw [update_transition t sp orc e hp hgo htr]
      exact ⟨hnl_mono, hnl_le3⟩
    · rw [update_level_no_transition t sp orc e hp hgo (not_le.mp htr)]
      exact ⟨le_refl _, h3⟩
  · intro h2
    have hlt3 : e.gameState.level < 3 := by omega
    simp only [nextLevel]
    rw [if_pos hlt3, if_pos h2]
    exact ⟨rfl, rfl, rfl, rfl⟩
  · intro h2
    simp only [nextLevel]
    split
    · exact ⟨rfl, rfl⟩
    · exact ⟨rfl, rfl⟩
  · intro hge3
    simp only [nextLevel]
    rw [if_neg hge3]
    exact ⟨rfl, rfl⟩

/-- A freshly constructed 800x600 engine. -/
def freshEngine : Engine := mkEngine 800 600 0

/-- **C5** (witness): the level-transition theorem on the fresh engine
at time 50000 (past the 30-second level-1 duration). -/
theorem claim_C5_level_transitions_witness :
    ((50000 - freshEngine.gameState.levelStartTime ≥
        freshEngine.gameState.levelDuration →
        update 50000 none (fun _ => []) freshEngine =
          nextLevel 50000 freshEngine) ∧
      (50000 - freshEngine.gameState.levelStartTime <
        freshEngine.gameState.levelDuration →
        (update 50000 none (fun _ => []) freshEngine).gameState.level =
          freshEngine.gameState.level)) ∧
    (freshEngine.gameState.level ≤
        (nextLevel 50000 freshEngine).gameState.level ∧
      (nextLevel 50000 freshEngine).gameState.level ≤ 3) ∧
    (freshEngine.gameState.level ≤
        (update 50000 none (fun _ => []) freshEngine).gameState.level ∧
      (update 50000 none (fun _ => []) freshEngine).gameState.level ≤ 3) ∧
    (freshEngine.gameState.level = 2 →
      (nextLevel 50000 freshEngine).base.health = 100 ∧
      (nextLevel 50000 freshEngine).base.maxHealth = 100 ∧
      (nextLevel 50000 freshEngine).gameState.playerHealth = 100 ∧
      (nextLevel 50000 freshEngine).gameState.maxPlayerHealth = 100) ∧
    (freshEngine.gameState.level ≠ 2 →
      (nextLevel 50000 freshEngine).base.health = freshEngine.base.health ∧
      (nextLevel 50000 freshEngine).gameState.playerHealth =
        freshEngine.gameState.playerHealth) ∧
    (¬ freshEngine.gameState.level < 3 →
      (nextLevel 50000 freshEngine).gameState.isGameOver = true ∧
      (nextLevel 50000 freshEngine).gameState.level =
        freshEngine.gameState.level) :=
  claim_C5_level_transitions freshEngine 50000 none (fun _ => []) rfl rfl
    (by norm_num [freshEngine, mkEngine])

/-- `nextLevel` leaves the combo multiplier untouched. -/
lemma nextLevel_mult (t : ℤ) (e : Engine) :
    (nextLevel t e).gameState.comboMultiplier =
      e.gameState.comboMultiplier := by
  simp only [nextLevel]
  split
  · split <;> rfl
  · rfl

/-- The combo decay keeps the multiplier inside `[1, 3]`. -/
lemma updateCombo_mult_bound (t : ℤ) (gs : GameState)
    (h1 : 1 ≤ gs.comboMultiplier) (h3 : gs.comboMultiplier ≤ 3) :
    1 ≤ (updateCombo t gs).comboMultiplier ∧
    (updateCombo t gs).comboMultiplier ≤ 3 := by
  simp only [updateCombo]
  split
  · norm_num
  · exact ⟨h1, h3⟩

/-- A whole `update` step keeps the multiplier inside `[1, 3]`. -/
lemma update_mult_bound (t : ℤ) (sp : Option Enemy) (orc : Enemy → List Bullet)
    (e : Engine) (h1 : 1 ≤ e.gameState.comboMultiplier)
    (h3 : e.gameState.comboMultiplier ≤ 3) :
    1 ≤ (update t sp orc e).gameState.comboMultiplier ∧
    (update t sp orc e).gameState.comboMultiplier ≤ 3 := by
  simp only [update]
  split
  · exact ⟨h1, h3⟩
  · split
    · rw [nextLevel_mult]
      exact ⟨h1, h3⟩
    · have hz : (enemyPhase t orc (spawnEnemies t sp e)).gameState.comboMultiplier =
          e.gameState.comboMultiplier := by
        rw [enemyPhase_mult, spawnEnemies_gameState]
      have hub := updateCombo_mult_bound t
        (enemyPhase t orc (spawnEnemies t sp e)).gameState
        (by rw [hz]; exact h1) (by rw [hz]; exact h3)
      simp only [updatePowerUps_gameState, bulletBasePass_mult_eq]
      exact bulletEnemyPass_mult t _ 0 _ hub.1 hub.2

/-- The public mutations of the engine: the per-frame `update`, the
player actions `shoot`, `moveUp`, `moveDown`, the host's
pause-flag writes, `reset`, and a power-up collection (the only way the
pickup pass mutates engine state). -/
inductive EngineStep : Engine → Engine → Prop where
  | stepUpdate (t : ℤ) (spawned : Option Enemy)
      (shootOracle : Enemy → List Bullet) (e : Engine) :
      EngineStep e (update t spawned shootOracle e)
  | stepShoot (e : Engine) : EngineStep e (shoot e)
  | stepMoveUp (m : ℚ) (e : Engine) :
      EngineStep e { e with base := moveUp e.canvasHeight m e.base }
  | stepMoveDown (m : ℚ) (e : Engine) :
      EngineStep e { e with base := moveDown e.canvasHeight m e.base }
  | stepSetPaused (b : Bool) (e : Engine) :
      EngineStep e { e with gameState := { e.gameState with isPaused := b } }
  | stepReset (t : ℤ) (e : Engine) : EngineStep e (resetEngine t e)
  | stepCollect (t : ℤ) (ty : PowerUpType) (e : Engine) :
      EngineStep e (activatePowerUp t ty e)

/-- The engine states reachable from construction through the public
mutations. -/
inductive Reachable : Engine → Prop where
  | init (w h : ℚ) (t : ℤ) : Reachable (mkEngine w h t)
  | step {e e2 : Engine} : Reachable e → EngineStep e e2 → Reachable e2

/-- One public mutation keeps the multiplier inside `[1, 3]`. -/
lemma EngineStep_mult {e e2 : Engine} (hs : EngineStep e e2)
    (h1 : 1 ≤ e.gameState.comboMultiplier)
    (h3 : e.gameState.comboMultiplier ≤ 3) :
    1 ≤ e2.gameState.comboMultiplier ∧ e2.gameState.comboMultiplier ≤ 3 := by
  cases hs with
  | stepUpdate t sp orc _ => exact update_mult_bound t sp orc e h1 h3
  | stepShoot _ => exact ⟨h1, h3⟩
  | stepMoveUp m _ => exact ⟨h1, h3⟩
  | stepMoveDown m _ => exact ⟨h1, h3⟩
  | stepSetPaused b _ => exact ⟨h1, h3⟩
  | stepReset t _ => norm_num [resetEngine]
  | stepCollect t ty _ => cases ty <;> exact ⟨h1, h3⟩

/-- Every reachable engine state keeps its combo multiplier in `[1, 3]`. -/
lemma reachable_mult_bound (e : Engine) (h : Reachable e) :
    1 ≤ e.gameState.comboMultiplier ∧ e.gameState.comboMultiplier ≤ 3 := by
  induction h with
  | init w h t => norm_num [mkEngine]
  | step hr hstep ih => exact EngineStep_mult hstep ih.1 ih.2

/-- **C2**: in every reachable engine state the combo multiplier lies in
`[1, 3]`; the kill bookkeeping raises the multiplier only when the kill
lands strictly within 2000 ms of a previous kill; the combo decay never
raises the multiplier; and once more than 2000 ms pass after the last
kill (a kill having happened), the next decay check resets combo and
multiplier to 0 and 1. -/
theorem claim_C2_combo_invariants :
    (∀ e : Engine, Reachable e →
      1 ≤ e.gameState.comboMultiplier ∧ e.gameState.comboMultiplier ≤ 3) ∧
    (∀ (gs : GameState) (t : ℤ), 1 ≤ gs.comboMultiplier →
      (killUpdate gs t).1.comboMultiplier > gs.comboMultiplier →
      (t - gs.lastKillTime < 2000 ∧ gs.lastKillTime > 0)) ∧
    (∀ (gs : GameState) (t : ℤ), 1 ≤ gs.comboMultiplier →
      (updateCombo t gs).comboMultiplier ≤ gs.comboMultiplier) ∧
    (∀ (gs : GameState) (t : ℤ), gs.lastKillTime > 0 →
      t - gs.lastKillTime > 2000 →
      (updateCombo t gs).combo = 0 ∧ (updateCombo t gs).comboMultiplier = 1) := by
  refine ⟨reachable_mult_bound, ?_, ?_, ?_⟩
  · intro gs t h1
    by_cases hcond : t - gs.lastKillTime < 2000 ∧ gs.lastKillTime > 0
    · exact fun _ => hcond
    · intro hgt
      exfalso
      have hm : (killUpdate gs t).1.comboMultiplier = 1 := by
        simp only [killUpdate]
        rw [if_neg hcond]
      rw [hm] at hgt
      linarith
  · intro gs t h1
    simp only [updateCombo]
    split
    · exact h1
    · exact le_refl _
  · intro gs t hk hd
    simp only [updateCombo]
    rw [if_pos ⟨hk, hd⟩]
    exact ⟨rfl, rfl⟩

end Shooter
